import Mathlib

/-!
# Verification of the zenoh subscription layer and the adjacent property-string codec

Shallow embedding of `src/zenoh/src/subscriber.rs` and
`src/commons/zenoh-protocol/src/core/properties.rs`.

Subscriber side: key expressions are modelled as `String`, callbacks/consumers
and receivers as opaque `Nat` identifiers, and the external session as an
oracle of outcome functions (`SessionOracle`).  Every interaction a builder,
handle or callback performs with the session is recorded as an explicit
`SessionCall` event, so that "which entry point was invoked with which
arguments" becomes a provable statement.  A Rust `panic` (the
`Option::take().unwrap()` on an already-emptied slot) is modelled as the
`none` result of a `run` function.

Properties side: strings are modelled as `List Char` and the splitting /
joining functions of the source are translated structurally.
-/

set_option autoImplicit false

/-- The kind of reliability (`zenoh_protocol_core::Reliability`). -/
inductive Reliability where
  | BestEffort
  | Reliable
deriving DecidableEq, Repr

/-- The subscription mode (`zenoh_protocol_core::SubMode`): Push or Pull. -/
inductive SubMode where
  | Push
  | Pull
deriving DecidableEq, Repr

/-- A subscription period (`zenoh_protocol_core::Period`): an opaque scheduling
hint carried verbatim by this layer (three `ZInt` fields, modelled as `Nat`). -/
structure Period where
  origin : Nat
  period : Nat
  duration : Nat
deriving DecidableEq, Repr

/-- The subscription configuration forwarded to the session
(`zenoh_protocol_core::SubInfo`), exactly as constructed in
`CallbackSubscriberBuilder::run` / `HandlerSubscriberBuilder::run`. -/
structure SubInfo where
  reliability : Reliability
  mode : SubMode
  period : Option Period
deriving DecidableEq, Repr

/-- An opaque session error (`zenoh_core::Error`), identified by a code. -/
structure ZError where
  code : Nat
deriving DecidableEq, Repr

/-- `SubscriberState` (subscriber.rs lines 34-39): the subscription record
returned by the session.  The consumer (`Callback<Sample>`) is modelled by an
opaque identifier. -/
structure SubscriberState where
  id : Nat
  key_expr : String
  key_expr_str : String
  callback : Nat
deriving DecidableEq, Repr

/-- A call into the external session, recorded as an event.  These are the
only entry points the subscription layer uses during creation and teardown. -/
inductive SessionCall where
  | declareSubscriber (key_expr : String) (callback : Nat) (info : SubInfo)
  | declareLocalSubscriber (key_expr : String) (callback : Nat)
  | unsubscribe (id : Nat)
deriving DecidableEq, Repr

/-- The external session, modelled as an oracle fixing the outcome of each
entry point.  The subscription layer treats the session as a black box; the
oracle lets theorems quantify over every possible session behaviour. -/
structure SessionOracle where
  declareOutcome : String → Nat → SubInfo → Except ZError SubscriberState
  declareLocalOutcome : String → Nat → Except ZError SubscriberState
  unsubscribeOutcome : Nat → Except ZError Unit

/-- `CallbackSubscriber` (subscriber.rs lines 54-58): the live subscription
handle, owning the liveness flag `alive`. -/
structure CallbackSubscriber where
  session : Nat
  state : SubscriberState
  alive : Bool
deriving DecidableEq, Repr

/-- `CallbackSubscriber::close` (subscriber.rs lines 101-104): sets
`alive := false` and issues `session.unsubscribe(state.id)`.  Returns the
consumed handle (as left for the subsequent `Drop`), the session calls issued,
and the unregistration result surfaced to the caller.  The liveness flip does
not depend on the unregistration outcome. -/
def CallbackSubscriber.close (s : SessionOracle) (h : CallbackSubscriber) :
    CallbackSubscriber × List SessionCall × Except ZError Unit :=
  ({ h with alive := false },
   [SessionCall.unsubscribe h.state.id],
   s.unsubscribeOutcome h.state.id)

/-- `impl Drop for CallbackSubscriber` (subscriber.rs lines 107-113): issues
`session.unsubscribe(state.id)` only when `alive` still holds; the result is
discarded (`let _ = ...`).  Returns the session calls issued. -/
def CallbackSubscriber.drop (h : CallbackSubscriber) : List SessionCall :=
  if h.alive then [SessionCall.unsubscribe h.state.id] else []

/-- `SubscriberBuilder` (subscriber.rs lines 142-149): the generic builder.
The session reference is an opaque identifier. -/
structure SubscriberBuilder where
  session : Nat
  key_expr : String
  reliability : Reliability
  mode : SubMode
  period : Option Period
  «local» : Bool
deriving DecidableEq, Repr

/-- `SubscriberBuilder::reliability` (line 195). -/
def SubscriberBuilder.setReliability (b : SubscriberBuilder) (reliability : Reliability) :
    SubscriberBuilder :=
  { b with reliability := reliability }

/-- `SubscriberBuilder::reliable` (line 202). -/
def SubscriberBuilder.reliable (b : SubscriberBuilder) : SubscriberBuilder :=
  { b with reliability := Reliability.Reliable }

/-- `SubscriberBuilder::best_effort` (line 209). -/
def SubscriberBuilder.best_effort (b : SubscriberBuilder) : SubscriberBuilder :=
  { b with reliability := Reliability.BestEffort }

/-- `SubscriberBuilder::mode` (line 216): sets the mode and nothing else. -/
def SubscriberBuilder.setMode (b : SubscriberBuilder) (mode : SubMode) : SubscriberBuilder :=
  { b with mode := mode }

/-- `SubscriberBuilder::push_mode` (lines 223-227): sets the mode to `Push`
and clears the period. -/
def SubscriberBuilder.push_mode (b : SubscriberBuilder) : SubscriberBuilder :=
  { b with mode := SubMode.Push, period := none }

/-- `SubscriberBuilder::pull_mode` (line 231). -/
def SubscriberBuilder.pull_mode (b : SubscriberBuilder) : SubscriberBuilder :=
  { b with mode := SubMode.Pull }

/-- `SubscriberBuilder::period` (line 238). -/
def SubscriberBuilder.setPeriod (b : SubscriberBuilder) (period : Option Period) :
    SubscriberBuilder :=
  { b with period := period }

/-- `SubscriberBuilder::local` (line 245). -/
def SubscriberBuilder.setLocal (b : SubscriberBuilder) : SubscriberBuilder :=
  { b with «local» := true }

/-- `CallbackSubscriberBuilder` (subscriber.rs lines 289-300): the builder
specialised to a user callback; the consumer lives in an `Option` slot that is
emptied by `run`. -/
structure CallbackSubscriberBuilder where
  session : Nat
  key_expr : String
  reliability : Reliability
  mode : SubMode
  period : Option Period
  «local» : Bool
  callback : Option Nat
deriving DecidableEq, Repr

/-- `CallbackSubscriberBuilder::reliability` (line 348). -/
def CallbackSubscriberBuilder.setReliability (b : CallbackSubscriberBuilder)
    (reliability : Reliability) : CallbackSubscriberBuilder :=
  { b with reliability := reliability }

/-- `CallbackSubscriberBuilder::reliable` (line 355). -/
def CallbackSubscriberBuilder.reliable (b : CallbackSubscriberBuilder) :
    CallbackSubscriberBuilder :=
  { b with reliability := Reliability.Reliable }

/-- `CallbackSubscriberBuilder::best_effort` (line 362). -/
def CallbackSubscriberBuilder.best_effort (b : CallbackSubscriberBuilder) :
    CallbackSubscriberBuilder :=
  { b with reliability := Reliability.BestEffort }

/-- `CallbackSubscriberBuilder::mode` (line 369): sets the mode and nothing else. -/
def CallbackSubscriberBuilder.setMode (b : CallbackSubscriberBuilder) (mode : SubMode) :
    CallbackSubscriberBuilder :=
  { b with mode := mode }

/-- `CallbackSubscriberBuilder::push_mode` (lines 376-380). -/
def CallbackSubscriberBuilder.push_mode (b : CallbackSubscriberBuilder) :
    CallbackSubscriberBuilder :=
  { b with mode := SubMode.Push, period := none }

/-- `CallbackSubscriberBuilder::pull_mode` (line 384). -/
def CallbackSubscriberBuilder.pull_mode (b : CallbackSubscriberBuilder) :
    CallbackSubscriberBuilder :=
  { b with mode := SubMode.Pull }

/-- `CallbackSubscriberBuilder::period` (line 391). -/
def CallbackSubscriberBuilder.setPeriod (b : CallbackSubscriberBuilder)
    (period : Option Period) : CallbackSubscriberBuilder :=
  { b with period := period }

/-- `CallbackSubscriberBuilder::local` (line 398). -/
def CallbackSubscriberBuilder.setLocal (b : CallbackSubscriberBuilder) :
    CallbackSubscriberBuilder :=
  { b with «local» := true }

/-- `SubscriberBuilder::callback` (subscriber.rs lines 155-171): specialise the
generic builder with a user callback, copying every configuration field. -/
def SubscriberBuilder.callback (b : SubscriberBuilder) (cb : Nat) :
    CallbackSubscriberBuilder :=
  { session := b.session
    key_expr := b.key_expr
    reliability := b.reliability
    mode := b.mode
    period := b.period
    «local» := b.«local»
    callback := some cb }

/-- `HandlerSubscriberBuilder` (subscriber.rs lines 444-452): the builder
specialised to a (consumer, receiver) handler pair held in an `Option` slot. -/
structure HandlerSubscriberBuilder where
  session : Nat
  key_expr : String
  reliability : Reliability
  mode : SubMode
  period : Option Period
  «local» : Bool
  handler : Option (Nat × Nat)
deriving DecidableEq, Repr

/-- `HandlerSubscriberBuilder::reliability` (line 493). -/
def HandlerSubscriberBuilder.setReliability (b : HandlerSubscriberBuilder)
    (reliability : Reliability) : HandlerSubscriberBuilder :=
  { b with reliability := reliability }

/-- `HandlerSubscriberBuilder::reliable` (line 500). -/
def HandlerSubscriberBuilder.reliable (b : HandlerSubscriberBuilder) :
    HandlerSubscriberBuilder :=
  { b with reliability := Reliability.Reliable }

/-- `HandlerSubscriberBuilder::best_effort` (line 507). -/
def HandlerSubscriberBuilder.best_effort (b : HandlerSubscriberBuilder) :
    HandlerSubscriberBuilder :=
  { b with reliability := Reliability.BestEffort }

/-- `HandlerSubscriberBuilder::mode` (line 514): sets the mode and nothing else. -/
def HandlerSubscriberBuilder.setMode (b : HandlerSubscriberBuilder) (mode : SubMode) :
    HandlerSubscriberBuilder :=
  { b with mode := mode }

/-- `HandlerSubscriberBuilder::push_mode` (lines 521-525). -/
def HandlerSubscriberBuilder.push_mode (b : HandlerSubscriberBuilder) :
    HandlerSubscriberBuilder :=
  { b with mode := SubMode.Push, period := none }

/-- `HandlerSubscriberBuilder::pull_mode` (line 529). -/
def HandlerSubscriberBuilder.pull_mode (b : HandlerSubscriberBuilder) :
    HandlerSubscriberBuilder :=
  { b with mode := SubMode.Pull }

/-- `HandlerSubscriberBuilder::period` (line 536). -/
def HandlerSubscriberBuilder.setPeriod (b : HandlerSubscriberBuilder)
    (period : Option Period) : HandlerSubscriberBuilder :=
  { b with period := period }

/-- `HandlerSubscriberBuilder::local` (line 543). -/
def HandlerSubscriberBuilder.setLocal (b : HandlerSubscriberBuilder) :
    HandlerSubscriberBuilder :=
  { b with «local» := true }

/-- `SubscriberBuilder::with` (subscriber.rs lines 175-191): specialise the
generic builder with a handler pair, copying every configuration field. -/
def SubscriberBuilder.withHandler (b : SubscriberBuilder) (h : Nat × Nat) :
    HandlerSubscriberBuilder :=
  { session := b.session
    key_expr := b.key_expr
    reliability := b.reliability
    mode := b.mode
    period := b.period
    «local» := b.«local»
    handler := some h }

/-- `HandlerSubscriber` (subscriber.rs lines 549-552): a handle paired with
the receiver side of the handler. -/
structure HandlerSubscriber where
  subscriber : CallbackSubscriber
  receiver : Nat
deriving DecidableEq, Repr

/-- `Runnable::run` for `CallbackSubscriberBuilder` (subscriber.rs lines
404-440).  `self.callback.take().unwrap()` empties the slot and panics when it
is already empty; the panic is modelled by the `none` result, in which case no
session call is issued.  On `some`, the function branches on `local`: the
local branch calls `declare_local_subscriber(key_expr, consumer)`, the other
branch calls `declare_subscriber(key_expr, consumer, SubInfo)`.  Returns the
declaration result, the mutated builder and the session calls issued. -/
def CallbackSubscriberBuilder.run (s : SessionOracle) (b : CallbackSubscriberBuilder) :
    Option (Except ZError CallbackSubscriber × CallbackSubscriberBuilder × List SessionCall) :=
  match b.callback with
  | none => none
  | some cb =>
    if b.«local» then
      some ((s.declareLocalOutcome b.key_expr cb).map
              (fun st => { session := b.session, state := st, alive := true }),
            { b with callback := none },
            [SessionCall.declareLocalSubscriber b.key_expr cb])
    else
      some ((s.declareOutcome b.key_expr cb
               { reliability := b.reliability, mode := b.mode, period := b.period }).map
              (fun st => { session := b.session, state := st, alive := true }),
            { b with callback := none },
            [SessionCall.declareSubscriber b.key_expr cb
               { reliability := b.reliability, mode := b.mode, period := b.period }])

/-- `Runnable::run` for `HandlerSubscriberBuilder` (subscriber.rs lines
605-642).  `self.handler.take().unwrap()` empties the slot (panic on second
use, modelled by `none`); the consumer half is handed to the session, the
receiver half is paired with the resulting handle. -/
def HandlerSubscriberBuilder.run (s : SessionOracle) (b : HandlerSubscriberBuilder) :
    Option (Except ZError HandlerSubscriber × HandlerSubscriberBuilder × List SessionCall) :=
  match b.handler with
  | none => none
  | some h =>
    if b.«local» then
      some (((s.declareLocalOutcome b.key_expr h.1).map
               (fun st => { session := b.session, state := st, alive := true })).map
              (fun sub => { subscriber := sub, receiver := h.2 }),
            { b with handler := none },
            [SessionCall.declareLocalSubscriber b.key_expr h.1])
    else
      some (((s.declareOutcome b.key_expr h.1
               { reliability := b.reliability, mode := b.mode, period := b.period }).map
               (fun st => { session := b.session, state := st, alive := true })).map
              (fun sub => { subscriber := sub, receiver := h.2 }),
            { b with handler := none },
            [SessionCall.declareSubscriber b.key_expr h.1
               { reliability := b.reliability, mode := b.mode, period := b.period }])

/-- `Runnable::run` for `SubscriberBuilder` (subscriber.rs lines 251-266):
builds a `HandlerSubscriberBuilder` with a freshly created bounded flume
channel as handler and runs it.  The fresh channel is modelled by the
`freshHandler` pair handed in by the environment. -/
def SubscriberBuilder.run (s : SessionOracle) (freshHandler : Nat × Nat)
    (b : SubscriberBuilder) :
    Option (Except ZError HandlerSubscriber × HandlerSubscriberBuilder × List SessionCall) :=
  HandlerSubscriberBuilder.run s
    { session := b.session
      key_expr := b.key_expr
      reliability := b.reliability
      mode := b.mode
      period := b.period
      «local» := b.«local»
      handler := some freshHandler }

/-- The result of one poll step of a future: ready with a value, or pending. -/
inductive PollR (α : Type) where
  | Ready (value : α)
  | Pending
deriving DecidableEq, Repr

/-- `Future::poll` for `CallbackSubscriberBuilder` (subscriber.rs lines
302-315): performs `self.run()` inline and wraps the value in
`Poll::Ready`.  A panic of `run` (the `none` case) propagates. -/
def CallbackSubscriberBuilder.poll (s : SessionOracle) (b : CallbackSubscriberBuilder) :
    Option (PollR (Except ZError CallbackSubscriber) × CallbackSubscriberBuilder ×
            List SessionCall) :=
  match CallbackSubscriberBuilder.run s b with
  | none => none
  | some (r, b2, ev) => some (PollR.Ready r, b2, ev)

/-- `ZFuture::wait` for `CallbackSubscriberBuilder` (subscriber.rs lines
317-325): performs `self.run()` on the calling thread. -/
def CallbackSubscriberBuilder.wait (s : SessionOracle) (b : CallbackSubscriberBuilder) :
    Option (Except ZError CallbackSubscriber × CallbackSubscriberBuilder × List SessionCall) :=
  CallbackSubscriberBuilder.run s b

/-- `Future::poll` for `HandlerSubscriberBuilder` (subscriber.rs lines
454-467): performs `self.run()` inline and wraps the value in `Poll::Ready`. -/
def HandlerSubscriberBuilder.poll (s : SessionOracle) (b : HandlerSubscriberBuilder) :
    Option (PollR (Except ZError HandlerSubscriber) × HandlerSubscriberBuilder ×
            List SessionCall) :=
  match HandlerSubscriberBuilder.run s b with
  | none => none
  | some (r, b2, ev) => some (PollR.Ready r, b2, ev)

/-- `ZFuture::wait` for `HandlerSubscriberBuilder` (subscriber.rs lines
469-477): performs `self.run()` on the calling thread. -/
def HandlerSubscriberBuilder.wait (s : SessionOracle) (b : HandlerSubscriberBuilder) :
    Option (Except ZError HandlerSubscriber × HandlerSubscriberBuilder × List SessionCall) :=
  HandlerSubscriberBuilder.run s b

/-- Modelled from the spec: the `derive_zfuture!` macro (crate `zenoh-sync` of
this repository, not under `src/`) generates `Future::poll` for
`SubscriberBuilder`; per the spec, the single poll step performs the same
synchronous work inline and immediately reports completion. -/
def SubscriberBuilder.poll (s : SessionOracle) (freshHandler : Nat × Nat)
    (b : SubscriberBuilder) :
    Option (PollR (Except ZError HandlerSubscriber) × HandlerSubscriberBuilder ×
            List SessionCall) :=
  match SubscriberBuilder.run s freshHandler b with
  | none => none
  | some (r, b2, ev) => some (PollR.Ready r, b2, ev)

/-- Modelled from the spec: the `derive_zfuture!` macro (crate `zenoh-sync` of
this repository, not under `src/`) generates `ZFuture::wait` for
`SubscriberBuilder`, which performs `run` on the calling thread. -/
def SubscriberBuilder.wait (s : SessionOracle) (freshHandler : Nat × Nat)
    (b : SubscriberBuilder) :
    Option (Except ZError HandlerSubscriber × HandlerSubscriberBuilder × List SessionCall) :=
  SubscriberBuilder.run s freshHandler b

/-- The state of a bounded flume channel: fixed capacity, buffered samples
(opaque identifiers) in delivery order, and whether the receiver half is
still alive. -/
structure ChannelState where
  capacity : Nat
  buffer : List Nat
  receiverAlive : Bool
deriving DecidableEq, Repr

/-- Result of a completed `flume::Sender::send`. -/
inductive FlumeSendResult where
  | ok
  | disconnected
deriving DecidableEq, Repr

/-- One step of `flume::Sender::send`: either it completes with a new channel
state and a result, or the sending thread blocks. -/
inductive SendStep where
  | completed (state : ChannelState) (result : FlumeSendResult)
  | blocked
deriving DecidableEq, Repr

/-- Semantics of the bounded `flume::Sender::send` used by `into_handler`
(external `flume` crate; its code is not part of this repository, so this
definition follows flume's documented behaviour): the send returns
`Err(Disconnected)` when all receivers have been dropped, enqueues the item
and returns `Ok` when the buffer has spare capacity, and otherwise blocks the
sending thread until space becomes available. -/
def flumeSend (st : ChannelState) (sample : Nat) : SendStep :=
  if st.receiverAlive = false then
    SendStep.completed st FlumeSendResult.disconnected
  else if st.buffer.length < st.capacity then
    SendStep.completed { st with buffer := st.buffer ++ [sample] } FlumeSendResult.ok
  else
    SendStep.blocked

/-- One step of the delivery path through the handler bridge: either it
completes (with the new channel state and whether a warning was logged), or
the delivering thread blocks.  There is no error variant: the callback
returns unit to the deliverer in every completed case. -/
inductive DeliveryStep where
  | completed (state : ChannelState) (warned : Bool)
  | blocked
deriving DecidableEq, Repr

/-- The consumer closure installed by
`IntoHandler for (flume::Sender<Sample>, flume::Receiver<Sample>)`
(subscriber.rs lines 644-658): it calls `sender.send(s)` and, when that
returns an `Err`, logs a warning and drops the sample; it never returns an
error to the deliverer.  When the underlying send blocks, the delivery path
blocks with it. -/
def into_handler_callback (st : ChannelState) (sample : Nat) : DeliveryStep :=
  match flumeSend st sample with
  | SendStep.completed st2 FlumeSendResult.ok => DeliveryStep.completed st2 false
  | SendStep.completed st2 FlumeSendResult.disconnected => DeliveryStep.completed st2 true
  | SendStep.blocked => DeliveryStep.blocked

/-- Strings of the property codec, modelled as lists of characters. -/
abbrev Str := List Char

/-- `split_once` (properties.rs lines 23-31): split at the first occurrence of
`c`, dropping it; when `c` does not occur, return `(s, "")`. -/
def split_once (s : Str) (c : Char) : Str × Str :=
  match s with
  | [] => ([], [])
  | x :: xs =>
    if x = c then ([], xs)
    else
      let p := split_once xs c
      (x :: p.1, p.2)

/-- `str::split` on a single separator character, as used by
`Properties::iter` and `Properties::values`: `""` yields `[""]`, and every
separator occurrence opens a new (possibly empty) segment. -/
def splitOn (c : Char) : Str → List Str
  | [] => [[]]
  | x :: xs =>
    if x = c then [] :: splitOn c xs
    else (x :: (splitOn c xs).headD []) :: (splitOn c xs).tail

/-- The separator predicate of `From<&str> for Properties` (properties.rs
lines 182-189): `;`, `=` or `|`. -/
def isPropSeparator (c : Char) : Bool :=
  c = ';' || c = '=' || c = '|'

/-- `str::trim_end_matches` with `isPropSeparator`, as used by the `From`
conversions of `Properties`. -/
def trimEndSeps (s : Str) : Str :=
  (s.reverse.dropWhile isPropSeparator).reverse

/-- `Properties` (properties.rs line 65): a newtype over the underlying
property string (`Cow<str>` in the source). -/
structure Properties where
  inner : Str
deriving DecidableEq, Repr

/-- `From<&str> for Properties` (properties.rs lines 182-189): trim trailing
separators, then wrap. -/
def Properties.from_str (s : Str) : Properties :=
  ⟨trimEndSeps s⟩

/-- `Properties::iter` (properties.rs lines 112-117): split the underlying
string on `;`, drop empty segments, and split each remaining segment once on
`=`.  No trimming is performed. -/
def Properties.iter (p : Properties) : List (Str × Str) :=
  ((splitOn ';' p.inner).filter (fun seg => seg ≠ [])).map (fun seg => split_once seg '=')

/-- `Properties::get` (properties.rs lines 87-94): the value of the first
pair of `iter` whose key equals `k`. -/
def Properties.get (p : Properties) (k : Str) : Option Str :=
  (p.iter.find? (fun q => q.1 = k)).map (fun q => q.2)

/-- `Properties::contains_key` (properties.rs lines 79-84). -/
def Properties.contains_key (p : Properties) (k : Str) : Bool :=
  (p.get k).isSome

/-- `Properties::values` (properties.rs lines 97-109): split the value found
for `k` on `|`; when the key is absent, the iterator is empty. -/
def Properties.values (p : Properties) (k : Str) : List Str :=
  match p.get k with
  | some v => splitOn '|' v
  | none => []

/-- One key-value pair rendered as text, as in the `concat` helper of
`FromIterator` (properties.rs lines 216-234): the key, then `=` and the value
unless the value is empty. -/
def pairStr (q : Str × Str) : Str :=
  q.1 ++ (if q.2 = [] then [] else '=' :: q.2)

/-- Join a list of segments with a separator character. -/
def joinSep (c : Char) : List Str → Str
  | [] => []
  | [s] => s
  | s :: ss => s ++ c :: joinSep c ss

/-- `FromIterator for Properties` (properties.rs lines 210-241): drop pairs
with an empty key, render each pair, and join with `;`.  The result is
wrapped directly, without trimming. -/
def Properties.from_iter (ps : List (Str × Str)) : Properties :=
  ⟨joinSep ';' ((ps.filter (fun q => q.1 ≠ [])).map pairStr)⟩

/-- `Properties::insert` (properties.rs lines 122-138): rebuild the property
string from the current pairs whose key differs from `k`, followed by the new
pair `(k, v)`; return the new properties together with the value previously
found for `k` (the first occurrence), if any. -/
def Properties.insert (p : Properties) (k v : Str) : Properties × Option Str :=
  (Properties.from_iter ((p.iter.filter (fun q => ¬q.1 = k)) ++ [(k, v)]),
   (p.iter.find? (fun q => q.1 = k)).map (fun q => q.2))

/-! ## Helper lemmas about the codec primitives -/

theorem splitOn_ne_nil (c : Char) (s : Str) : splitOn c s ≠ [] := by
  cases s with
  | nil => simp [splitOn]
  | cons x xs => by_cases hx : x = c <;> simp [splitOn, hx]

theorem splitOn_no_sep (c : Char) (s : Str) (h : c ∉ s) : splitOn c s = [s] := by
  induction s with
  | nil => rfl
  | cons x xs ih =>
    rw [List.mem_cons, not_or] at h
    simp [splitOn, if_neg (fun hh : x = c => h.1 hh.symm), ih h.2]

theorem splitOn_append_sep (c : Char) (a b : Str) (h : c ∉ a) :
    splitOn c (a ++ c :: b) = a :: splitOn c b := by
  induction a with
  | nil => simp [splitOn]
  | cons x a2 ih =>
    rw [List.mem_cons, not_or] at h
    simp [splitOn, if_neg (fun hh : x = c => h.1 hh.symm), ih h.2]

theorem splitOn_joinSep (c : Char) (l : List Str) (hne : l ≠ []) (h : ∀ x ∈ l, c ∉ x) :
    splitOn c (joinSep c l) = l := by
  induction l with
  | nil => exact absurd rfl hne
  | cons x xs ih =>
    cases xs with
    | nil => exact splitOn_no_sep c x (h x (by simp))
    | cons y t =>
      have hx : c ∉ x := h x (by simp)
      have hrest : splitOn c (joinSep c (y :: t)) = y :: t :=
        ih (by simp) (fun z hz => h z (List.mem_cons_of_mem _ hz))
      calc splitOn c (joinSep c (x :: y :: t))
          = splitOn c (x ++ c :: joinSep c (y :: t)) := rfl
        _ = x :: splitOn c (joinSep c (y :: t)) := splitOn_append_sep c x _ hx
        _ = x :: y :: t := by rw [hrest]

theorem mem_splitOn_not_sep (c : Char) (s t : Str) (ht : t ∈ splitOn c s) : c ∉ t := by
  induction s generalizing t with
  | nil =>
    simp [splitOn] at ht
    subst ht
    simp
  | cons x xs ih =>
    by_cases hx : x = c
    · simp only [splitOn, if_pos hx, List.mem_cons] at ht
      rcases ht with rfl | ht
      · simp
      · exact ih t ht
    · obtain ⟨h0, t0, he⟩ : ∃ h0 t0, splitOn c xs = h0 :: t0 := by
        cases hs : splitOn c xs with
        | nil => exact absurd hs (splitOn_ne_nil c xs)
        | cons a b2 => exact ⟨a, b2, rfl⟩
      simp only [splitOn, if_neg hx, he, List.headD_cons, List.tail_cons, List.mem_cons] at ht
      rcases ht with rfl | ht
      · intro hc
        rcases List.mem_cons.mp hc with hc | hc
        · exact hx hc.symm
        · exact ih h0 (by rw [he]; exact List.mem_cons_self _ _) hc
      · exact ih t (by rw [he]; exact List.mem_cons_of_mem _ ht)

theorem split_once_no_sep (c : Char) (s : Str) (h : c ∉ s) : split_once s c = (s, []) := by
  induction s with
  | nil => rfl
  | cons x xs ih =>
    rw [List.mem_cons, not_or] at h
    simp [split_once, if_neg (fun hh : x = c => h.1 hh.symm), ih h.2]

theorem split_once_append (c : Char) (a b : Str) (h : c ∉ a) :
    split_once (a ++ c :: b) c = (a, b) := by
  induction a with
  | nil => simp [split_once]
  | cons x a2 ih =>
    rw [List.mem_cons, not_or] at h
    simp [split_once, if_neg (fun hh : x = c => h.1 hh.symm), ih h.2]

theorem split_once_fst_no_sep (c : Char) (s : Str) : c ∉ (split_once s c).1 := by
  induction s with
  | nil => simp [split_once]
  | cons x xs ih =>
    by_cases hx : x = c
    · simp [split_once, hx]
    · intro hc
      simp only [split_once, if_neg hx, List.mem_cons] at hc
      rcases hc with hc | hc
      · exact hx hc.symm
      · exact ih hc

theorem mem_split_once_fst (c x : Char) (s : Str) (hx : x ∈ (split_once s c).1) : x ∈ s := by
  induction s with
  | nil => simp [split_once] at hx
  | cons y ys ih =>
    by_cases hy : y = c
    · simp [split_once, hy] at hx
    · simp only [split_once, if_neg hy, List.mem_cons] at hx
      rcases hx with rfl | hx
      · exact List.mem_cons_self _ _
      · exact List.mem_cons_of_mem _ (ih hx)

theorem mem_split_once_snd (c x : Char) (s : Str) (hx : x ∈ (split_once s c).2) : x ∈ s := by
  induction s with
  | nil => simp [split_once] at hx
  | cons y ys ih =>
    by_cases hy : y = c
    · simp only [split_once, if_pos hy] at hx
      exact List.mem_cons_of_mem _ hx
    · simp only [split_once, if_neg hy] at hx
      exact List.mem_cons_of_mem _ (ih hx)

theorem split_once_pairStr (q : Str × Str) (h : '=' ∉ q.1) :
    split_once (pairStr q) '=' = q := by
  obtain ⟨k, v⟩ := q
  by_cases hv : v = ([] : Str)
  · subst hv
    show split_once (k ++ if ([] : Str) = [] then [] else '=' :: []) '=' = (k, [])
    rw [if_pos rfl, List.append_nil]
    exact split_once_no_sep '=' k h
  · show split_once (k ++ if v = [] then [] else '=' :: v) '=' = (k, v)
    rw [if_neg hv]
    exact split_once_append '=' k v h

theorem pairStr_ne_nil (q : Str × Str) (h : q.1 ≠ []) : pairStr q ≠ [] := by
  obtain ⟨k, v⟩ := q
  cases k with
  | nil => exact absurd rfl h
  | cons a as => simp [pairStr]

theorem sep_not_mem_pairStr (q : Str × Str) (h1 : ';' ∉ q.1) (h2 : ';' ∉ q.2) :
    ';' ∉ pairStr q := by
  obtain ⟨k, v⟩ := q
  intro hc
  by_cases hv : v = ([] : Str)
  · subst hv
    simp [pairStr] at hc
    exact h1 hc
  · simp only [pairStr, if_neg hv, List.mem_append, List.mem_cons] at hc
    rcases hc with hc | hc | hc
    · exact h1 hc
    · exact absurd hc (by decide)
    · exact h2 hc

theorem find?_append_of_none {α : Type} (pred : α → Bool) (l m : List α)
    (h : ∀ x ∈ l, pred x = false) : (l ++ m).find? pred = m.find? pred := by
  induction l with
  | nil => rfl
  | cons x xs ih =>
    rw [List.cons_append,
        List.find?_cons_of_neg _ (by simp [h x (List.mem_cons_self _ _)])]
    exact ih (fun y hy => h y (List.mem_cons_of_mem _ hy))

theorem iter_mem_no_seps (p : Properties) (q : Str × Str) (hq : q ∈ p.iter) :
    ';' ∉ q.1 ∧ '=' ∉ q.1 ∧ ';' ∉ q.2 := by
  simp only [Properties.iter, List.mem_map, List.mem_filter] at hq
  obtain ⟨seg, ⟨hseg, _⟩, rfl⟩ := hq
  have hsep : ';' ∉ seg := mem_splitOn_not_sep ';' p.inner seg hseg
  exact ⟨fun hc => hsep (mem_split_once_fst '=' ';' seg hc),
         split_once_fst_no_sep '=' seg,
         fun hc => hsep (mem_split_once_snd '=' ';' seg hc)⟩

theorem iter_from_iter (ps : List (Str × Str))
    (h : ∀ q ∈ ps, ';' ∉ q.1 ∧ '=' ∉ q.1 ∧ ';' ∉ q.2) :
    (Properties.from_iter ps).iter = ps.filter (fun q => q.1 ≠ []) := by
  unfold Properties.from_iter Properties.iter
  by_cases hnil : ps.filter (fun q => q.1 ≠ []) = []
  · rw [hnil]
    rfl
  · have hmem : ∀ q ∈ ps.filter (fun q => q.1 ≠ []), q ∈ ps :=
      fun q hq => (List.mem_filter.mp hq).1
    have hkey : ∀ q ∈ ps.filter (fun q => q.1 ≠ []), q.1 ≠ [] := by
      intro q hq
      have := (List.mem_filter.mp hq).2
      simpa using this
    have hmapne : (ps.filter (fun q => q.1 ≠ [])).map pairStr ≠ [] := by
      intro hm
      exact hnil (by simpa using hm)
    have hsplit : splitOn ';' (joinSep ';' ((ps.filter (fun q => q.1 ≠ [])).map pairStr))
        = (ps.filter (fun q => q.1 ≠ [])).map pairStr := by
      apply splitOn_joinSep ';' _ hmapne
      intro x hx
      obtain ⟨q, hq, rfl⟩ := List.mem_map.mp hx
      exact sep_not_mem_pairStr q (h q (hmem q hq)).1 (h q (hmem q hq)).2.2
    rw [hsplit]
    have hfil : ((ps.filter (fun q => q.1 ≠ [])).map pairStr).filter (fun seg => seg ≠ [])
        = (ps.filter (fun q => q.1 ≠ [])).map pairStr := by
      apply List.filter_eq_self.mpr
      intro seg hseg
      obtain ⟨q, hq, rfl⟩ := List.mem_map.mp hseg
      simpa using pairStr_ne_nil q (hkey q hq)
    rw [hfil, List.map_map]
    have hcong : ∀ q ∈ ps.filter (fun q => q.1 ≠ []),
        ((fun seg => split_once seg '=') ∘ pairStr) q = q := by
      intro q hq
      exact split_once_pairStr q (h q (hmem q hq)).2.1
    rw [List.map_congr_left hcong]
    simp

/-! ## Claim theorems -/

/-- C1, counterexample: the claim says every operation that sets the mode to
`Push` yields a builder whose period is `none`.  The general `mode` setter
refutes this: starting from a builder with a configured period, `mode(Push)`
yields mode `Push` together with the non-empty period. -/
theorem c1_mode_push_keeps_period_counterexample :
    (SubscriberBuilder.setMode
        (SubscriberBuilder.setPeriod
          { session := 0, key_expr := "k", reliability := Reliability.BestEffort,
            mode := SubMode.Pull, period := none, «local» := false }
          (some { origin := 0, period := 10, duration := 0 }))
        SubMode.Push).mode = SubMode.Push
    ∧ (SubscriberBuilder.setMode
        (SubscriberBuilder.setPeriod
          { session := 0, key_expr := "k", reliability := Reliability.BestEffort,
            mode := SubMode.Pull, period := none, «local» := false }
          (some { origin := 0, period := 10, duration := 0 }))
        SubMode.Push).period = some { origin := 0, period := 10, duration := 0 } := by
  decide

/-- C1, amended: on every builder variant, the dedicated `push_mode` setter
yields a builder with mode `Push` and period `none`; the general `mode` setter
leaves the period unchanged, so a configuration with mode `Push` and a
non-empty period is constructible. -/
theorem c1_push_mode_clears_period (b : SubscriberBuilder)
    (cb : CallbackSubscriberBuilder) (hb : HandlerSubscriberBuilder) :
    b.push_mode.period = none ∧ b.push_mode.mode = SubMode.Push
    ∧ cb.push_mode.period = none ∧ cb.push_mode.mode = SubMode.Push
    ∧ hb.push_mode.period = none ∧ hb.push_mode.mode = SubMode.Push :=
  ⟨rfl, rfl, rfl, rfl, rfl, rfl⟩

/-- C8, counterexample: the claim says every configuration mutator changes
exactly one field.  `push_mode` on a builder with mode `Pull` and a configured
period changes two fields: the mode and the period. -/
theorem c8_push_mode_changes_two_fields_counterexample :
    (SubscriberBuilder.push_mode
        { session := 0, key_expr := "k", reliability := Reliability.BestEffort,
          mode := SubMode.Pull, period := some { origin := 0, period := 10, duration := 0 },
          «local» := false }).mode ≠ SubMode.Pull
    ∧ (SubscriberBuilder.push_mode
        { session := 0, key_expr := "k", reliability := Reliability.BestEffort,
          mode := SubMode.Pull, period := some { origin := 0, period := 10, duration := 0 },
          «local» := false }).period ≠ some { origin := 0, period := 10, duration := 0 } := by
  decide

/-- C8, amended: every configuration mutator on each of the three builder
variants returns the input builder with only its target field(s) replaced —
`reliability`/`reliable`/`best_effort` the reliability, `mode` the mode,
`pull_mode` the mode, `period` the period, `local` the locality flag, and
`push_mode` exactly the two fields mode and period; the session, key
expression, consumer slot and all remaining fields are unchanged, as the
record-update equalities state. -/
theorem c8_setters_frame (b : SubscriberBuilder) (cb : CallbackSubscriberBuilder)
    (hb : HandlerSubscriberBuilder) (r : Reliability) (m : SubMode) (p : Option Period) :
    (b.setReliability r = { b with reliability := r }
      ∧ b.reliable = { b with reliability := Reliability.Reliable }
      ∧ b.best_effort = { b with reliability := Reliability.BestEffort }
      ∧ b.setMode m = { b with mode := m }
      ∧ b.push_mode = { b with mode := SubMode.Push, period := none }
      ∧ b.pull_mode = { b with mode := SubMode.Pull }
      ∧ b.setPeriod p = { b with period := p }
      ∧ b.setLocal = { b with «local» := true })
    ∧ (cb.setReliability r = { cb with reliability := r }
      ∧ cb.reliable = { cb with reliability := Reliability.Reliable }
      ∧ cb.best_effort = { cb with reliability := Reliability.BestEffort }
      ∧ cb.setMode m = { cb with mode := m }
      ∧ cb.push_mode = { cb with mode := SubMode.Push, period := none }
      ∧ cb.pull_mode = { cb with mode := SubMode.Pull }
      ∧ cb.setPeriod p = { cb with period := p }
      ∧ cb.setLocal = { cb with «local» := true })
    ∧ (hb.setReliability r = { hb with reliability := r }
      ∧ hb.reliable = { hb with reliability := Reliability.Reliable }
      ∧ hb.best_effort = { hb with reliability := Reliability.BestEffort }
      ∧ hb.setMode m = { hb with mode := m }
      ∧ hb.push_mode = { hb with mode := SubMode.Push, period := none }
      ∧ hb.pull_mode = { hb with mode := SubMode.Pull }
      ∧ hb.setPeriod p = { hb with period := p }
      ∧ hb.setLocal = { hb with «local» := true }) :=
  ⟨⟨rfl, rfl, rfl, rfl, rfl, rfl, rfl, rfl⟩,
   ⟨rfl, rfl, rfl, rfl, rfl, rfl, rfl, rfl⟩,
   ⟨rfl, rfl, rfl, rfl, rfl, rfl, rfl, rfl⟩⟩

/-- C2: unregistration is issued at most once per handle.  `close` flips the
liveness flag and issues exactly one `unsubscribe` call — for every session
oracle, hence also when the unregistration outcome is an error — and the
subsequent drop of the closed handle issues none, so the close-then-drop
lifetime issues exactly one call; a drop of a still-alive handle issues
exactly one call, and a drop never issues more than one. -/
theorem c2_unsubscribe_at_most_once (s : SessionOracle) (h : CallbackSubscriber)
    (halive : h.alive = true) :
    (CallbackSubscriber.close s h).1.alive = false
    ∧ (CallbackSubscriber.close s h).2.1 = [SessionCall.unsubscribe h.state.id]
    ∧ CallbackSubscriber.drop (CallbackSubscriber.close s h).1 = []
    ∧ ((CallbackSubscriber.close s h).2.1 ++
        CallbackSubscriber.drop (CallbackSubscriber.close s h).1).length = 1
    ∧ CallbackSubscriber.drop h = [SessionCall.unsubscribe h.state.id]
    ∧ (CallbackSubscriber.drop h).length ≤ 1 := by
  refine ⟨rfl, rfl, rfl, rfl, ?_, ?_⟩
  · simp [CallbackSubscriber.drop, halive]
  · simp [CallbackSubscriber.drop, halive]

/-- C2, witness: a concrete alive handle against a session whose
unregistration fails. -/
theorem c2_unsubscribe_at_most_once_witness :
    (CallbackSubscriber.close
        { declareOutcome := fun _ _ _ => Except.error { code := 7 },
          declareLocalOutcome := fun _ _ => Except.error { code := 7 },
          unsubscribeOutcome := fun _ => Except.error { code := 7 } }
        { session := 0, state := { id := 3, key_expr := "k", key_expr_str := "k", callback := 5 },
          alive := true }).1.alive = false
    ∧ (CallbackSubscriber.close
        { declareOutcome := fun _ _ _ => Except.error { code := 7 },
          declareLocalOutcome := fun _ _ => Except.error { code := 7 },
          unsubscribeOutcome := fun _ => Except.error { code := 7 } }
        { session := 0, state := { id := 3, key_expr := "k", key_expr_str := "k", callback := 5 },
          alive := true }).2.1 = [SessionCall.unsubscribe 3]
    ∧ CallbackSubscriber.drop
        (CallbackSubscriber.close
          { declareOutcome := fun _ _ _ => Except.error { code := 7 },
            declareLocalOutcome := fun _ _ => Except.error { code := 7 },
            unsubscribeOutcome := fun _ => Except.error { code := 7 } }
          { session := 0, state := { id := 3, key_expr := "k", key_expr_str := "k", callback := 5 },
            alive := true }).1 = []
    ∧ ((CallbackSubscriber.close
          { declareOutcome := fun _ _ _ => Except.error { code := 7 },
            declareLocalOutcome := fun _ _ => Except.error { code := 7 },
            unsubscribeOutcome := fun _ => Except.error { code := 7 } }
          { session := 0, state := { id := 3, key_expr := "k", key_expr_str := "k", callback := 5 },
            alive := true }).2.1 ++
        CallbackSubscriber.drop
          (CallbackSubscriber.close
            { declareOutcome := fun _ _ _ => Except.error { code := 7 },
              declareLocalOutcome := fun _ _ => Except.error { code := 7 },
              unsubscribeOutcome := fun _ => Except.error { code := 7 } }
            { session := 0, state := { id := 3, key_expr := "k", key_expr_str := "k", callback := 5 },
              alive := true }).1).length = 1
    ∧ CallbackSubscriber.drop
        { session := 0, state := { id := 3, key_expr := "k", key_expr_str := "k", callback := 5 },
          alive := true } = [SessionCall.unsubscribe 3]
    ∧ (CallbackSubscriber.drop
        { session := 0, state := { id := 3, key_expr := "k", key_expr_str := "k", callback := 5 },
          alive := true }).length ≤ 1 :=
  c2_unsubscribe_at_most_once
    { declareOutcome := fun _ _ _ => Except.error { code := 7 },
      declareLocalOutcome := fun _ _ => Except.error { code := 7 },
      unsubscribeOutcome := fun _ => Except.error { code := 7 } }
    { session := 0, state := { id := 3, key_expr := "k", key_expr_str := "k", callback := 5 },
      alive := true }
    rfl

/-- C3: running a callback or handler builder a second time after the first
run consumed the stored consumer fails fast (the panic modelled by `none`,
issuing no declare call) rather than declaring twice or silently returning:
the first successful run leaves the slot empty, and the second run hits the
empty slot. -/
theorem c3_second_run_fails_fast (s : SessionOracle) (b : CallbackSubscriberBuilder)
    (out : Except ZError CallbackSubscriber × CallbackSubscriberBuilder × List SessionCall)
    (hb2 : HandlerSubscriberBuilder)
    (out2 : Except ZError HandlerSubscriber × HandlerSubscriberBuilder × List SessionCall)
    (hrun : CallbackSubscriberBuilder.run s b = some out)
    (hrun2 : HandlerSubscriberBuilder.run s hb2 = some out2) :
    out.2.1.callback = none
    ∧ CallbackSubscriberBuilder.run s out.2.1 = none
    ∧ out2.2.1.handler = none
    ∧ HandlerSubscriberBuilder.run s out2.2.1 = none := by
  rcases hcb : b.callback with _ | cb
  · simp [CallbackSubscriberBuilder.run, hcb] at hrun
  · rcases hh : hb2.handler with _ | hp
    · simp [HandlerSubscriberBuilder.run, hh] at hrun2
    · simp only [CallbackSubscriberBuilder.run, hcb] at hrun
      simp only [HandlerSubscriberBuilder.run, hh] at hrun2
      rcases hl : b.«local» with _ | _ <;>
        rcases hl2 : hb2.«local» with _ | _ <;>
        simp only [hl, hl2, Bool.false_eq_true, if_false, if_true,
          Option.some.injEq] at hrun hrun2 <;>
        subst hrun <;> subst hrun2 <;>
        exact ⟨rfl, rfl, rfl, rfl⟩

/-- C3, witness: a concrete first run succeeds and empties the slot; both
hypotheses are discharged by evaluation. -/
theorem c3_second_run_fails_fast_witness :
    ({ session := 0, key_expr := "k", reliability := Reliability.BestEffort,
       mode := SubMode.Push, period := none, «local» := false,
       callback := none } : CallbackSubscriberBuilder).callback = none
    ∧ CallbackSubscriberBuilder.run
        { declareOutcome := fun _ _ _ =>
            Except.ok { id := 1, key_expr := "k", key_expr_str := "k", callback := 9 },
          declareLocalOutcome := fun _ _ =>
            Except.ok { id := 2, key_expr := "k", key_expr_str := "k", callback := 9 },
          unsubscribeOutcome := fun _ => Except.ok () }
        { session := 0, key_expr := "k", reliability := Reliability.BestEffort,
          mode := SubMode.Push, period := none, «local» := false, callback := none } = none
    ∧ ({ session := 0, key_expr := "k", reliability := Reliability.BestEffort,
         mode := SubMode.Push, period := none, «local» := false,
         handler := none } : HandlerSubscriberBuilder).handler = none
    ∧ HandlerSubscriberBuilder.run
        { declareOutcome := fun _ _ _ =>
            Except.ok { id := 1, key_expr := "k", key_expr_str := "k", callback := 9 },
          declareLocalOutcome := fun _ _ =>
            Except.ok { id := 2, key_expr := "k", key_expr_str := "k", callback := 9 },
          unsubscribeOutcome := fun _ => Except.ok () }
        { session := 0, key_expr := "k", reliability := Reliability.BestEffort,
          mode := SubMode.Push, period := none, «local» := false, handler := none } = none :=
  c3_second_run_fails_fast
    { declareOutcome := fun _ _ _ =>
        Except.ok { id := 1, key_expr := "k", key_expr_str := "k", callback := 9 },
      declareLocalOutcome := fun _ _ =>
        Except.ok { id := 2, key_expr := "k", key_expr_str := "k", callback := 9 },
      unsubscribeOutcome := fun _ => Except.ok () }
    { session := 0, key_expr := "k", reliability := Reliability.BestEffort,
      mode := SubMode.Push, period := none, «local» := false, callback := some 9 }
    (Except.ok { session := 0,
                 state := { id := 1, key_expr := "k", key_expr_str := "k", callback := 9 },
                 alive := true },
     { session := 0, key_expr := "k", reliability := Reliability.BestEffort,
       mode := SubMode.Push, period := none, «local» := false, callback := none },
     [SessionCall.declareSubscriber "k" 9
        { reliability := Reliability.BestEffort, mode := SubMode.Push, period := none }])
    { session := 0, key_expr := "k", reliability := Reliability.BestEffort,
      mode := SubMode.Push, period := none, «local» := false, handler := some (9, 4) }
    (Except.ok { subscriber :=
                   { session := 0,
                     state := { id := 1, key_expr := "k", key_expr_str := "k", callback := 9 },
                     alive := true },
                 receiver := 4 },
     { session := 0, key_expr := "k", reliability := Reliability.BestEffort,
       mode := SubMode.Push, period := none, «local» := false, handler := none },
     [SessionCall.declareSubscriber "k" 9
        { reliability := Reliability.BestEffort, mode := SubMode.Push, period := none }])
    rfl
    rfl

/-- C4: a builder resolution with `local = true` issues exactly the single
call `declare_local_subscriber(key_expr, consumer)` — carrying no
configuration — and one with `local = false` issues exactly the single call
`declare_subscriber(key_expr, consumer, SubInfo)` carrying the configured
reliability, mode and period; in either case the other entry point is never
invoked, for both the callback and the handler builder variants. -/
theorem c4_locality_dispatch (s : SessionOracle) (b : CallbackSubscriberBuilder)
    (cb : Nat) (hb2 : HandlerSubscriberBuilder) (hcb hrecv : Nat)
    (h1 : b.callback = some cb) (h2 : hb2.handler = some (hcb, hrecv)) :
    (CallbackSubscriberBuilder.run s b).map (fun x => x.2.2)
      = some (if b.«local» then [SessionCall.declareLocalSubscriber b.key_expr cb]
              else [SessionCall.declareSubscriber b.key_expr cb
                      { reliability := b.reliability, mode := b.mode, period := b.period }])
    ∧ (HandlerSubscriberBuilder.run s hb2).map (fun x => x.2.2)
      = some (if hb2.«local» then [SessionCall.declareLocalSubscriber hb2.key_expr hcb]
              else [SessionCall.declareSubscriber hb2.key_expr hcb
                      { reliability := hb2.reliability, mode := hb2.mode,
                        period := hb2.period }]) := by
  constructor
  · rcases hl : b.«local» with _ | _ <;> simp [CallbackSubscriberBuilder.run, h1, hl]
  · rcases hl : hb2.«local» with _ | _ <;> simp [HandlerSubscriberBuilder.run, h2, hl]

/-- C4, witness: a local callback builder and a non-local handler builder,
resolved against a concrete session. -/
theorem c4_locality_dispatch_witness :
    (CallbackSubscriberBuilder.run
        { declareOutcome := fun _ _ _ =>
            Except.ok { id := 1, key_expr := "k", key_expr_str := "k", callback := 9 },
          declareLocalOutcome := fun _ _ =>
            Except.ok { id := 2, key_expr := "k", key_expr_str := "k", callback := 9 },
          unsubscribeOutcome := fun _ => Except.ok () }
        { session := 0, key_expr := "k", reliability := Reliability.Reliable,
          mode := SubMode.Pull, period := some { origin := 1, period := 2, duration := 3 },
          «local» := true, callback := some 9 }).map (fun x => x.2.2)
      = some [SessionCall.declareLocalSubscriber "k" 9]
    ∧ (HandlerSubscriberBuilder.run
        { declareOutcome := fun _ _ _ =>
            Except.ok { id := 1, key_expr := "k", key_expr_str := "k", callback := 9 },
          declareLocalOutcome := fun _ _ =>
            Except.ok { id := 2, key_expr := "k", key_expr_str := "k", callback := 9 },
          unsubscribeOutcome := fun _ => Except.ok () }
        { session := 0, key_expr := "k", reliability := Reliability.Reliable,
          mode := SubMode.Pull, period := some { origin := 1, period := 2, duration := 3 },
          «local» := false, handler := some (8, 4) }).map (fun x => x.2.2)
      = some [SessionCall.declareSubscriber "k" 8
                { reliability := Reliability.Reliable, mode := SubMode.Pull,
                  period := some { origin := 1, period := 2, duration := 3 } }] :=
  c4_locality_dispatch
    { declareOutcome := fun _ _ _ =>
        Except.ok { id := 1, key_expr := "k", key_expr_str := "k", callback := 9 },
      declareLocalOutcome := fun _ _ =>
        Except.ok { id := 2, key_expr := "k", key_expr_str := "k", callback := 9 },
      unsubscribeOutcome := fun _ => Except.ok () }
    { session := 0, key_expr := "k", reliability := Reliability.Reliable,
      mode := SubMode.Pull, period := some { origin := 1, period := 2, duration := 3 },
      «local» := true, callback := some 9 }
    9
    { session := 0, key_expr := "k", reliability := Reliability.Reliable,
      mode := SubMode.Pull, period := some { origin := 1, period := 2, duration := 3 },
      «local» := false, handler := some (8, 4) }
    8 4
    rfl
    rfl

/-- C6: for every builder variant (generic, callback, handler), the
cooperative path and the blocking path coincide: `poll` yields exactly the
value of `wait` wrapped in `Ready` — never `Pending` — and `wait` is the
single synchronous `run`; both paths perform the same run with the same
session calls, and a panic of `run` propagates identically through both. -/
theorem c6_poll_equals_wait (s : SessionOracle) (b : CallbackSubscriberBuilder)
    (hb2 : HandlerSubscriberBuilder) (gb : SubscriberBuilder) (fh : Nat × Nat) :
    CallbackSubscriberBuilder.poll s b
      = (CallbackSubscriberBuilder.wait s b).map (fun x => (PollR.Ready x.1, x.2.1, x.2.2))
    ∧ CallbackSubscriberBuilder.wait s b = CallbackSubscriberBuilder.run s b
    ∧ HandlerSubscriberBuilder.poll s hb2
      = (HandlerSubscriberBuilder.wait s hb2).map (fun x => (PollR.Ready x.1, x.2.1, x.2.2))
    ∧ HandlerSubscriberBuilder.wait s hb2 = HandlerSubscriberBuilder.run s hb2
    ∧ SubscriberBuilder.poll s fh gb
      = (SubscriberBuilder.wait s fh gb).map (fun x => (PollR.Ready x.1, x.2.1, x.2.2))
    ∧ SubscriberBuilder.wait s fh gb = SubscriberBuilder.run s fh gb := by
  refine ⟨?_, rfl, ?_, rfl, ?_, rfl⟩
  · unfold CallbackSubscriberBuilder.poll CallbackSubscriberBuilder.wait
    cases CallbackSubscriberBuilder.run s b with
    | none => rfl
    | some out =>
      obtain ⟨r, b2, ev⟩ := out
      rfl
  · unfold HandlerSubscriberBuilder.poll HandlerSubscriberBuilder.wait
    cases HandlerSubscriberBuilder.run s hb2 with
    | none => rfl
    | some out =>
      obtain ⟨r, b2, ev⟩ := out
      rfl
  · unfold SubscriberBuilder.poll SubscriberBuilder.wait
    cases SubscriberBuilder.run s fh gb with
    | none => rfl
    | some out =>
      obtain ⟨r, b2, ev⟩ := out
      rfl

/-- C7: the resolution result of a builder run is exactly the session's
declare outcome: an `Except.map` that turns a successful `SubscriberState`
into a handle with `alive = true` (paired with the receiver for the handler
variant) and leaves any declare error untouched, so a declare error is
returned unchanged to the caller and no handle is produced, while a handle
with the liveness flag set is produced exactly when the declare succeeds. -/
theorem c7_declare_result_propagates (s : SessionOracle) (b : CallbackSubscriberBuilder)
    (cb : Nat) (hb2 : HandlerSubscriberBuilder) (hcb hrecv : Nat)
    (h1 : b.callback = some cb) (h2 : hb2.handler = some (hcb, hrecv)) :
    (CallbackSubscriberBuilder.run s b).map (fun x => x.1)
      = some ((if b.«local» then s.declareLocalOutcome b.key_expr cb
               else s.declareOutcome b.key_expr cb
                      { reliability := b.reliability, mode := b.mode,
                        period := b.period }).map
                (fun st => { session := b.session, state := st, alive := true }))
    ∧ (HandlerSubscriberBuilder.run s hb2).map (fun x => x.1)
      = some (((if hb2.«local» then s.declareLocalOutcome hb2.key_expr hcb
                else s.declareOutcome hb2.key_expr hcb
                       { reliability := hb2.reliability, mode := hb2.mode,
                         period := hb2.period }).map
                 (fun st => { session := hb2.session, state := st, alive := true })).map
                (fun sub => { subscriber := sub, receiver := hrecv })) := by
  constructor
  · rcases hl : b.«local» with _ | _ <;> simp [CallbackSubscriberBuilder.run, h1, hl]
  · rcases hl : hb2.«local» with _ | _ <;> simp [HandlerSubscriberBuilder.run, h2, hl]

/-- C7, witness: a failing declare propagates its error unchanged through the
callback run, and a succeeding declare yields a handle with `alive = true`
(paired with the receiver) through the handler run. -/
theorem c7_declare_result_propagates_witness :
    (CallbackSubscriberBuilder.run
        { declareOutcome := fun _ _ _ => Except.error { code := 3 },
          declareLocalOutcome := fun _ _ =>
            Except.ok { id := 2, key_expr := "k", key_expr_str := "k", callback := 9 },
          unsubscribeOutcome := fun _ => Except.ok () }
        { session := 0, key_expr := "k", reliability := Reliability.BestEffort,
          mode := SubMode.Push, period := none, «local» := false,
          callback := some 9 }).map (fun x => x.1)
      = some (Except.error { code := 3 })
    ∧ (HandlerSubscriberBuilder.run
        { declareOutcome := fun _ _ _ => Except.error { code := 3 },
          declareLocalOutcome := fun _ _ =>
            Except.ok { id := 2, key_expr := "k", key_expr_str := "k", callback := 9 },
          unsubscribeOutcome := fun _ => Except.ok () }
        { session := 0, key_expr := "k", reliability := Reliability.BestEffort,
          mode := SubMode.Push, period := none, «local» := true,
          handler := some (8, 4) }).map (fun x => x.1)
      = some (Except.ok
                { subscriber :=
                    { session := 0,
                      state := { id := 2, key_expr := "k", key_expr_str := "k", callback := 9 },
                      alive := true },
                  receiver := 4 }) :=
  c7_declare_result_propagates
    { declareOutcome := fun _ _ _ => Except.error { code := 3 },
      declareLocalOutcome := fun _ _ =>
        Except.ok { id := 2, key_expr := "k", key_expr_str := "k", callback := 9 },
      unsubscribeOutcome := fun _ => Except.ok () }
    { session := 0, key_expr := "k", reliability := Reliability.BestEffort,
      mode := SubMode.Push, period := none, «local» := false, callback := some 9 }
    9
    { session := 0, key_expr := "k", reliability := Reliability.BestEffort,
      mode := SubMode.Push, period := none, «local» := true, handler := some (8, 4) }
    8 4
    rfl
    rfl

/-- C5, counterexample: the claim says delivering into a full buffer does not
block and drops the sample with a warning.  On a full channel whose receiver
is alive, the bounded flume send — and with it the installed consumer —
blocks instead of completing with a dropped sample. -/
theorem c5_full_buffer_blocks_counterexample :
    into_handler_callback { capacity := 1, buffer := [7], receiverAlive := true } 8
      = DeliveryStep.blocked
    ∧ into_handler_callback { capacity := 1, buffer := [7], receiverAlive := true } 8
      ≠ DeliveryStep.completed { capacity := 1, buffer := [7], receiverAlive := true } true := by
  decide

/-- C5, amended: when the receiver has already been dropped, delivering a
sample completes without blocking and without returning an error to the
deliverer — the failure is logged as a warning and the sample is dropped
(channel state unchanged); when the receiver is alive and the buffer has
spare capacity, the sample is enqueued without a warning.  When the buffer is
full with a live receiver the delivery path blocks (see the counterexample);
it is not lossy-on-overflow. -/
theorem c5_disconnected_warns_and_drops (st st2 : ChannelState) (sample : Nat)
    (hdead : st.receiverAlive = false)
    (halive : st2.receiverAlive = true) (hroom : st2.buffer.length < st2.capacity) :
    into_handler_callback st sample = DeliveryStep.completed st true
    ∧ into_handler_callback st2 sample
      = DeliveryStep.completed { st2 with buffer := st2.buffer ++ [sample] } false := by
  constructor
  · simp [into_handler_callback, flumeSend, hdead]
  · simp [into_handler_callback, flumeSend, halive, hroom]

/-- C5, witness: a dropped receiver and a channel with spare capacity, at
concrete states. -/
theorem c5_disconnected_warns_and_drops_witness :
    into_handler_callback { capacity := 1, buffer := [], receiverAlive := false } 9
      = DeliveryStep.completed { capacity := 1, buffer := [], receiverAlive := false } true
    ∧ into_handler_callback { capacity := 2, buffer := [5], receiverAlive := true } 9
      = DeliveryStep.completed { capacity := 2, buffer := [5, 9], receiverAlive := true }
          false :=
  c5_disconnected_warns_and_drops
    { capacity := 1, buffer := [], receiverAlive := false }
    { capacity := 2, buffer := [5], receiverAlive := true }
    9 rfl rfl (by decide)

/-- C9: the claim (and the source's own doc comment, properties.rs line 35)
says parsed keys and values are trimmed.  Parsing `" a = 1"` yields the key
`" a "` — with leading and trailing whitespace — and the value `" 1"`:
nothing is trimmed, so lookup of the trimmed key `"a"` fails while the
whitespace-laden key succeeds. -/
theorem c9_keys_values_not_trimmed :
    (Properties.from_str (" a = 1".toList)).iter = [(" a ".toList, " 1".toList)]
    ∧ (" a ".toList).head? = some ' '
    ∧ (Properties.from_str (" a = 1".toList)).get ("a".toList) = none
    ∧ (Properties.from_str (" a = 1".toList)).get (" a ".toList) = some (" 1".toList) := by
  decide

/-- C10: when the underlying string contains the same key more than once,
`get` returns the value of the first occurrence in textual order (hence
`contains_key` reports presence and `values` splits that first value), while
`insert` removes every existing occurrence of the key and appends the new
pair at the end, so lookup after insert observes the newly inserted value;
`insert` also hands back the previously visible (first) value.  The
hypotheses state that the inserted key and value are representable in the
textual codec (non-empty key, no `;` or `=` in the key, no `;` in the value)
and that the current pairs all have non-empty keys. -/
theorem c10_get_first_insert_last (p : Properties) (k v v0 : Str)
    (l1 l2 : List (Str × Str))
    (hk : k ≠ []) (hks : ';' ∉ k) (hke : '=' ∉ k) (hvs : ';' ∉ v)
    (hclean : ∀ q ∈ p.iter, q.1 ≠ [])
    (hdecomp : p.iter = l1 ++ (k, v0) :: l2)
    (hfirst : ∀ q ∈ l1, q.1 ≠ k) :
    p.get k = some v0
    ∧ p.contains_key k = true
    ∧ p.values k = splitOn '|' v0
    ∧ (p.insert k v).1.iter = p.iter.filter (fun q => ¬q.1 = k) ++ [(k, v)]
    ∧ (p.insert k v).1.get k = some v
    ∧ (p.insert k v).2 = some v0 := by
  have hget : p.get k = some v0 := by
    unfold Properties.get
    rw [hdecomp, find?_append_of_none _ l1 _ (fun q hq => by simp [hfirst q hq]),
        List.find?_cons_of_pos _ (by simp)]
    rfl
  have hcond : ∀ q ∈ p.iter.filter (fun q => ¬q.1 = k) ++ [(k, v)],
      ';' ∉ q.1 ∧ '=' ∉ q.1 ∧ ';' ∉ q.2 := by
    intro q hq
    rcases List.mem_append.mp hq with hq | hq
    · exact iter_mem_no_seps p q (List.mem_filter.mp hq).1
    · have hqe : q = (k, v) := by simpa using hq
      subst hqe
      exact ⟨hks, hke, hvs⟩
  have hins : (p.insert k v).1.iter = p.iter.filter (fun q => ¬q.1 = k) ++ [(k, v)] := by
    have hround := iter_from_iter (p.iter.filter (fun q => ¬q.1 = k) ++ [(k, v)]) hcond
    have hfil : (p.iter.filter (fun q => ¬q.1 = k) ++ [(k, v)]).filter (fun q => q.1 ≠ [])
        = p.iter.filter (fun q => ¬q.1 = k) ++ [(k, v)] := by
      rw [List.filter_append]
      congr 1
      · apply List.filter_eq_self.mpr
        intro q hq
        simpa using hclean q (List.mem_filter.mp hq).1
      · simp [hk]
    calc (p.insert k v).1.iter
        = (Properties.from_iter (p.iter.filter (fun q => ¬q.1 = k) ++ [(k, v)])).iter := rfl
      _ = (p.iter.filter (fun q => ¬q.1 = k) ++ [(k, v)]).filter (fun q => q.1 ≠ []) := hround
      _ = p.iter.filter (fun q => ¬q.1 = k) ++ [(k, v)] := hfil
  have hnone2 : ∀ q ∈ p.iter.filter (fun q => ¬q.1 = k),
      (fun q : Str × Str => decide (q.1 = k)) q = false := by
    intro q hq
    have h2 := (List.mem_filter.mp hq).2
    simp only [decide_eq_true_eq] at h2
    simpa using h2
  have hget2 : (p.insert k v).1.get k = some v := by
    unfold Properties.get
    rw [hins, find?_append_of_none _ _ _ hnone2, List.find?_cons_of_pos _ (by simp)]
    rfl
  have hsnd : (p.insert k v).2 = some v0 := by
    show (p.iter.find? (fun q => q.1 = k)).map (fun q => q.2) = some v0
    rw [hdecomp, find?_append_of_none _ l1 _ (fun q hq => by simp [hfirst q hq]),
        List.find?_cons_of_pos _ (by simp)]
    rfl
  refine ⟨hget, ?_, ?_, hins, hget2, hsnd⟩
  · unfold Properties.contains_key
    rw [hget]
    rfl
  · unfold Properties.values
    rw [hget]

/-- C10, witness: a property string in which the key `a` occurs twice; `get`
sees the first occurrence, and after `insert` only the new value remains. -/
theorem c10_get_first_insert_last_witness :
    (Properties.from_str ("b=2;a=1;a=9".toList)).get ("a".toList) = some ("1".toList)
    ∧ (Properties.from_str ("b=2;a=1;a=9".toList)).contains_key ("a".toList) = true
    ∧ (Properties.from_str ("b=2;a=1;a=9".toList)).values ("a".toList)
        = splitOn '|' ("1".toList)
    ∧ ((Properties.from_str ("b=2;a=1;a=9".toList)).insert ("a".toList) ("7".toList)).1.iter
        = (Properties.from_str ("b=2;a=1;a=9".toList)).iter.filter
            (fun q => ¬q.1 = ("a".toList)) ++ [("a".toList, "7".toList)]
    ∧ ((Properties.from_str ("b=2;a=1;a=9".toList)).insert
          ("a".toList) ("7".toList)).1.get ("a".toList) = some ("7".toList)
    ∧ ((Properties.from_str ("b=2;a=1;a=9".toList)).insert
          ("a".toList) ("7".toList)).2 = some ("1".toList) :=
  c10_get_first_insert_last
    (Properties.from_str ("b=2;a=1;a=9".toList))
    ("a".toList) ("7".toList) ("1".toList)
    [("b".toList, "2".toList)] [("a".toList, "9".toList)]
    (by decide) (by decide) (by decide) (by decide) (by decide) (by decide) (by decide)
